import Mathlib

/-!
Verification of the creation-code recovery flow of
crates/cast/bin/cmd/creation_code.rs: a shallow embedding of
fetch_creation_code, parse_code_output and CreationCodeArgs::run, with the
block-explorer and RPC collaborators modelled as response oracles and every
collaborator call recorded in an explicit call log.  Rust panics (the usize
subtraction / slice-range failures and the explicit panic branch) are
modelled as a distinguished result constructor.
-/

namespace CreationCode

/-- A 20-byte account address; only exact equality matters here. -/
abbrev Address := Nat

/-- A byte sequence; only lengths and element order matter here. -/
abbrev Bytes := List Nat

/-- A transaction hash. -/
abbrev TxHash := Nat

/-- One ABI parameter descriptor (alloy Param); only its presence matters. -/
structure Param where
  name : String
  ty : String
deriving DecidableEq

/-- An ABI constructor: an ordered sequence of parameter descriptors. -/
structure Constructor where
  inputs : List Param
deriving DecidableEq

/-- An ABI record; the embedding keeps only the constructor field, the sole
field parse_code_output reads. -/
structure JsonAbi where
  constructor : Option Constructor
deriving DecidableEq

/-- alloy CreateAction: the action side of a create trace entry. -/
structure CreateAction where
  init : Bytes
  value : Nat
  sender : Address
  gas : Nat
deriving DecidableEq

/-- Trace action: Create, or any of the other alloy variants the code
matches with a wildcard arm. -/
inductive Action where
| create (a : CreateAction)
| other
deriving DecidableEq

/-- alloy CreateOutput: the result side of a create trace entry. -/
structure CreateOutput where
  address : Address
  code : Bytes
  gas_used : Nat
deriving DecidableEq

/-- Trace result: CreateOutput, or any other variant (wildcard arm). -/
inductive TraceOutput where
| create (o : CreateOutput)
| other
deriving DecidableEq

/-- The action/result pair of one trace entry. -/
structure TransactionTrace where
  action : Action
  result : Option TraceOutput
deriving DecidableEq

/-- A localized trace entry as returned by trace_transaction; the code
reads it through the .trace field. -/
structure LocalizedTrace where
  trace : TransactionTrace
deriving DecidableEq

/-- Explorer contract_creation_data response. -/
structure CreationData where
  transaction_hash : TxHash
deriving DecidableEq

/-- Transaction record; to_addr models the source field named to, which is
a reserved word here.  It is absent for a top-level creation transaction. -/
structure Transaction where
  to_addr : Option Address
  input : Bytes
deriving DecidableEq

/-- The block-explorer collaborator, as a response oracle. -/
structure Client where
  contract_creation_data : Address → Except String CreationData

/-- The RPC provider collaborator, as response oracles. -/
structure Provider where
  get_transaction_by_hash : TxHash → Except String (Option Transaction)
  trace_transaction : TxHash → Except String (List LocalizedTrace)

/-- The ABI lookup collaborator (fetch_abi_from_etherscan), as an oracle
from address to the ordered (abi, name) candidate list. -/
abbrev AbiFetch := Address → Except String (List (JsonAbi × String))

/-- One collaborator call, recorded in program order. -/
inductive Call where
| creation_data (a : Address)
| get_transaction (h : TxHash)
| trace_transaction (h : TxHash)
| fetch_abi (a : Address)
deriving DecidableEq

/-- Result of a fallible, possibly panicking Rust function: Ok value,
eyre error with its message, or a panic with its message. -/
inductive RResult (α : Type) where
| ok (a : α)
| error (e : String)
| panicked (msg : String)
deriving DecidableEq

/-- What run would print: raw hex bytes or a disassembly of the bytes
(the disassembly formatting itself is an external collaborator). -/
inductive RunOutput where
| raw (b : Bytes)
| disassembled (b : Bytes)
deriving DecidableEq

/-- The body of the for-loop over traces in fetch_creation_code: when the
entry result is a CreateOutput whose address equals the target, the
recorded bytecode is overwritten with the Create action init bytes, or
with none when the action is not a Create; otherwise the accumulator is
kept. -/
def scan_step (contract : Address) (acc : Option Bytes) (t : LocalizedTrace) :
    Option Bytes :=
  match t.trace.result with
  | some (TraceOutput.create co) =>
    if co.address = contract then
      match t.trace.action with
      | Action.create ca => some ca.init
      | Action.other => none
    else acc
  | _ => acc

/-- Whether a trace entry result is a CreateOutput for the target address
(the condition guarding the overwrite in the loop). -/
def matches_target (contract : Address) (t : LocalizedTrace) : Bool :=
  match t.trace.result with
  | some (TraceOutput.create co) => decide (co.address = contract)
  | _ => false

/-- fetch_creation_code: explorer creation lookup, transaction fetch, then
either the transaction input directly (to absent) or the last-match scan
over the transaction traces. -/
def fetch_creation_code (contract : Address) (client : Client)
    (provider : Provider) : RResult Bytes × List Call :=
  match client.contract_creation_data contract with
  | Except.error e => (RResult.error e, [Call.creation_data contract])
  | Except.ok creation_data =>
    let creation_tx_hash := creation_data.transaction_hash
    match provider.get_transaction_by_hash creation_tx_hash with
    | Except.error e =>
      (RResult.error e,
       [Call.creation_data contract, Call.get_transaction creation_tx_hash])
    | Except.ok none =>
      (RResult.error "Could not find creation tx data.",
       [Call.creation_data contract, Call.get_transaction creation_tx_hash])
    | Except.ok (some tx_data) =>
      match tx_data.to_addr with
      | none =>
        (RResult.ok tx_data.input,
         [Call.creation_data contract, Call.get_transaction creation_tx_hash])
      | some _ =>
        match provider.trace_transaction creation_tx_hash with
        | Except.error e =>
          (RResult.error ("Could not fetch traces for transaction "
              ++ toString creation_tx_hash ++ ": " ++ e),
           [Call.creation_data contract,
            Call.get_transaction creation_tx_hash,
            Call.trace_transaction creation_tx_hash])
        | Except.ok traces =>
          match traces.foldl (scan_step contract) none with
          | some init =>
            (RResult.ok init,
             [Call.creation_data contract,
              Call.get_transaction creation_tx_hash,
              Call.trace_transaction creation_tx_hash])
          | none =>
            (RResult.error "Could not find contract creation trace.",
             [Call.creation_data contract,
              Call.get_transaction creation_tx_hash,
              Call.trace_transaction creation_tx_hash])

/-- parse_code_output: pass the bytecode through when neither flag is set;
otherwise fetch the ABI, select the first candidate, and slice the
trailing 32-bytes-per-parameter constructor-argument window.  The Rust
slice bytecode[.. len - args_size] (resp. [len - args_size ..]) panics
when args_size exceeds len (usize subtraction overflow / slice range out
of bounds); the embedding returns the panicked constructor there. -/
def parse_code_output (bytecode : Bytes) (contract : Address)
    (abiFetch : AbiFetch) (without_args only_args : Bool) :
    RResult Bytes × List Call :=
  if !without_args && !only_args then
    (RResult.ok bytecode, [])
  else
    match abiFetch contract with
    | Except.error e => (RResult.error e, [Call.fetch_abi contract])
    | Except.ok abis =>
      match abis with
      | [] => (RResult.error "No ABI found.", [Call.fetch_abi contract])
      | (abi, _) :: _ =>
        match abi.constructor with
        | none =>
          if only_args then
            (RResult.error "No constructor found.", [Call.fetch_abi contract])
          else
            (RResult.ok bytecode, [Call.fetch_abi contract])
        | some ctor =>
          if ctor.inputs.isEmpty then
            if only_args then
              (RResult.error "No constructor arguments found.",
               [Call.fetch_abi contract])
            else
              (RResult.ok bytecode, [Call.fetch_abi contract])
          else
            let args_size := ctor.inputs.length * 32
            let sliced : RResult Bytes :=
              if without_args then
                if args_size ≤ bytecode.length then
                  RResult.ok (bytecode.take (bytecode.length - args_size))
                else
                  RResult.panicked "attempt to subtract with overflow"
              else if only_args then
                if args_size ≤ bytecode.length then
                  RResult.ok (bytecode.drop (bytecode.length - args_size))
                else
                  RResult.panicked "attempt to subtract with overflow"
              else
                RResult.panicked "Unreachable."
            (sliced, [Call.fetch_abi contract])

/-- CreationCodeArgs::run: reject conflicting mode flags before any
collaborator call, then locate the creation code and post-process it. -/
def run (contract : Address) (disassemble without_args only_args : Bool)
    (client : Client) (provider : Provider) (abiFetch : AbiFetch) :
    RResult RunOutput × List Call :=
  if without_args && only_args then
    (RResult.error "--without-args and --only-args are mutually exclusive.",
     [])
  else
    match fetch_creation_code contract client provider with
    | (RResult.error e, log) => (RResult.error e, log)
    | (RResult.panicked m, log) => (RResult.panicked m, log)
    | (RResult.ok bytecode, log) =>
      match parse_code_output bytecode contract abiFetch without_args
          only_args with
      | (RResult.error e, log2) => (RResult.error e, log ++ log2)
      | (RResult.panicked m, log2) => (RResult.panicked m, log ++ log2)
      | (RResult.ok b, log2) =>
        (RResult.ok (if disassemble then RunOutput.disassembled b
                     else RunOutput.raw b),
         log ++ log2)

/-! Concrete fixtures used by the witness theorems. -/

/-- A two-parameter constructor. -/
def ctor2 : Constructor := ⟨[⟨"x", "uint256"⟩, ⟨"y", "address"⟩]⟩

/-- ABI oracle answering with one candidate whose constructor has two
parameters. -/
def abif2 : AbiFetch := fun _ => Except.ok [(⟨some ctor2⟩, "C")]

/-- ABI oracle answering with one candidate that has no constructor. -/
def abif_none : AbiFetch := fun _ => Except.ok [(⟨none⟩, "C")]

/-- ABI oracle answering with one candidate whose constructor has zero
parameters. -/
def abif0 : AbiFetch := fun _ => Except.ok [(⟨some ⟨[]⟩⟩, "C")]

/-- A 96-byte bytecode. -/
def b96 : Bytes := List.replicate 96 1

/-- A top-level creation transaction (to absent). -/
def tx_top : Transaction := ⟨none, [13, 14]⟩

/-- A transaction sent to a factory (to present). -/
def tx_factory : Transaction := ⟨some 99, [0]⟩

/-- Explorer oracle answering with creation transaction hash 5. -/
def client1 : Client := ⟨fun _ => Except.ok ⟨5⟩⟩

/-- Provider oracle whose creation transaction is top-level. -/
def provider_top : Provider :=
  ⟨fun _ => Except.ok (some tx_top), fun _ => Except.ok []⟩

/-- Provider oracle for a factory deployment with the given traces. -/
def provider_factory (traces : List LocalizedTrace) : Provider :=
  ⟨fun _ => Except.ok (some tx_factory), fun _ => Except.ok traces⟩

/-- A create entry whose output address is 7 and whose init bytes are
[1, 2]. -/
def entry_create_match : LocalizedTrace :=
  ⟨⟨Action.create ⟨[1, 2], 0, 9, 0⟩, some (TraceOutput.create ⟨7, [], 0⟩)⟩⟩

/-- A second create entry for address 7 with init bytes [3, 4]. -/
def entry_create_match2 : LocalizedTrace :=
  ⟨⟨Action.create ⟨[3, 4], 0, 9, 0⟩, some (TraceOutput.create ⟨7, [], 0⟩)⟩⟩

/-- An entry that does not touch address 7 at all. -/
def entry_other : LocalizedTrace := ⟨⟨Action.other, none⟩⟩

/-- An entry whose result is a CreateOutput for address 7 but whose action
is not a Create. -/
def entry_match_nocreate : LocalizedTrace :=
  ⟨⟨Action.other, some (TraceOutput.create ⟨7, [], 0⟩)⟩⟩

/-! Helper lemmas about the trace scan. -/

/-- An entry whose result is not a matching CreateOutput leaves the scan
accumulator unchanged. -/
theorem scan_step_no_match (contract : Address) (acc : Option Bytes)
    (t : LocalizedTrace) (h : matches_target contract t = false) :
    scan_step contract acc t = acc := by
  unfold matches_target at h
  unfold scan_step
  cases hr : t.trace.result with
  | none => simp
  | some o =>
    cases o with
    | other => simp
    | create co =>
      rw [hr] at h
      simp only [decide_eq_false_iff_not] at h
      simp [h]

/-- A matching entry whose action is a Create overwrites the accumulator
with that action's init bytes. -/
theorem scan_step_match_create (contract : Address) (acc : Option Bytes)
    (t : LocalizedTrace) (ca : CreateAction)
    (hm : matches_target contract t = true)
    (ha : t.trace.action = Action.create ca) :
    scan_step contract acc t = some ca.init := by
  unfold matches_target at hm
  unfold scan_step
  cases hr : t.trace.result with
  | none => rw [hr] at hm; simp at hm
  | some o =>
    cases o with
    | other => rw [hr] at hm; simp at hm
    | create co =>
      rw [hr] at hm
      simp only [decide_eq_true_eq] at hm
      simp [hm, ha]

/-- A matching entry whose action is not a Create overwrites the
accumulator with nothing. -/
theorem scan_step_match_other (contract : Address) (acc : Option Bytes)
    (t : LocalizedTrace)
    (hm : matches_target contract t = true)
    (ha : t.trace.action = Action.other) :
    scan_step contract acc t = none := by
  unfold matches_target at hm
  unfold scan_step
  cases hr : t.trace.result with
  | none => rw [hr] at hm; simp at hm
  | some o =>
    cases o with
    | other => rw [hr] at hm; simp at hm
    | create co =>
      rw [hr] at hm
      simp only [decide_eq_true_eq] at hm
      simp [hm, ha]

/-- The scan over a list with no matching entry returns its starting
accumulator. -/
theorem foldl_scan_no_match (contract : Address) :
    ∀ (l : List LocalizedTrace) (acc : Option Bytes),
      (∀ u ∈ l, matches_target contract u = false) →
      l.foldl (scan_step contract) acc = acc := by
  intro l
  induction l with
  | nil => intro acc _; rfl
  | cons t ts ih =>
    intro acc h
    rw [List.foldl_cons,
        scan_step_no_match contract acc t (h t (List.mem_cons_self t ts))]
    exact ih acc (fun u hu => h u (List.mem_cons_of_mem t hu))

/-- The full scan yields the init bytes of the last matching entry when
that entry's action is a Create. -/
theorem scan_last_match (contract : Address) (pre post : List LocalizedTrace)
    (t : LocalizedTrace) (ca : CreateAction)
    (hm : matches_target contract t = true)
    (ha : t.trace.action = Action.create ca)
    (hpost : ∀ u ∈ post, matches_target contract u = false) :
    (pre ++ t :: post).foldl (scan_step contract) none = some ca.init := by
  rw [List.foldl_append, List.foldl_cons,
      scan_step_match_create contract _ t ca hm ha,
      foldl_scan_no_match contract post _ hpost]

/-- The full scan yields nothing when the last matching entry's action is
not a Create, whatever the earlier entries recorded. -/
theorem scan_last_match_other (contract : Address)
    (pre post : List LocalizedTrace) (t : LocalizedTrace)
    (hm : matches_target contract t = true)
    (ha : t.trace.action = Action.other)
    (hpost : ∀ u ∈ post, matches_target contract u = false) :
    (pre ++ t :: post).foldl (scan_step contract) none = none := by
  rw [List.foldl_append, List.foldl_cons,
      scan_step_match_other contract _ t hm ha,
      foldl_scan_no_match contract post _ hpost]

/-! The claims. -/

/-- Claim C5: whenever both the without-args and only-args flags are set,
run fails with the mutual-exclusion usage error and the collaborator call
log is empty: no explorer or provider call is made. -/
theorem C5_usage_error_before_io (contract : Address) (disassemble : Bool)
    (client : Client) (provider : Provider) (abiFetch : AbiFetch) :
    run contract disassemble true true client provider abiFetch =
      (RResult.error "--without-args and --only-args are mutually exclusive.",
       []) := rfl

/-- Claim C6: with neither flag set, parse_code_output returns the
bytecode unchanged and its call log is empty: no ABI lookup is
performed. -/
theorem C6_passthrough_unchanged (bytecode : Bytes) (contract : Address)
    (abiFetch : AbiFetch) :
    parse_code_output bytecode contract abiFetch false false =
      (RResult.ok bytecode, []) := rfl

/-- Claim C7: when the selected ABI has no constructor, WithoutArgs passes
the bytecode through and OnlyArgs fails with the no-constructor error;
when the constructor has zero parameters, WithoutArgs passes through and
OnlyArgs fails with the no-constructor-arguments error. -/
theorem C7_absent_or_empty_constructor (bytecode : Bytes)
    (contract : Address) (f g : AbiFetch) (nm nm2 : String)
    (rest rest2 : List (JsonAbi × String))
    (hf : f contract = Except.ok ((⟨none⟩, nm) :: rest))
    (hg : g contract = Except.ok ((⟨some ⟨[]⟩⟩, nm2) :: rest2)) :
    parse_code_output bytecode contract f true false =
      (RResult.ok bytecode, [Call.fetch_abi contract]) ∧
    parse_code_output bytecode contract f false true =
      (RResult.error "No constructor found.", [Call.fetch_abi contract]) ∧
    parse_code_output bytecode contract g true false =
      (RResult.ok bytecode, [Call.fetch_abi contract]) ∧
    parse_code_output bytecode contract g false true =
      (RResult.error "No constructor arguments found.",
       [Call.fetch_abi contract]) := by
  refine ⟨?_, ?_, ?_, ?_⟩ <;> simp [parse_code_output, hf, hg]

/-- Witness for claim C7 at concrete oracles. -/
theorem C7_absent_or_empty_constructor_witness :
    parse_code_output [1, 2, 3] 7 abif_none true false =
      (RResult.ok [1, 2, 3], [Call.fetch_abi 7]) ∧
    parse_code_output [1, 2, 3] 7 abif_none false true =
      (RResult.error "No constructor found.", [Call.fetch_abi 7]) ∧
    parse_code_output [1, 2, 3] 7 abif0 true false =
      (RResult.ok [1, 2, 3], [Call.fetch_abi 7]) ∧
    parse_code_output [1, 2, 3] 7 abif0 false true =
      (RResult.error "No constructor arguments found.",
       [Call.fetch_abi 7]) :=
  C7_absent_or_empty_constructor [1, 2, 3] 7 abif_none abif0 "C" "C" [] []
    rfl rfl

/-- Claim C2 concerns the required bound check argsSize ≤ length.  The
code has no such check: at a bytecode shorter than the argument window it
reaches the panicking usize subtraction / out-of-range slice in both
modes, instead of failing with a MalformedBytecode error.  This theorem
evaluates the embedded code at such a failing input (empty bytecode,
two-parameter constructor). -/
theorem C2_missing_bound_check_panics :
    parse_code_output [] 7 abif2 false true =
      (RResult.panicked "attempt to subtract with overflow",
       [Call.fetch_abi 7]) ∧
    parse_code_output [] 7 abif2 true false =
      (RResult.panicked "attempt to subtract with overflow",
       [Call.fetch_abi 7]) := by
  constructor <;> rfl

/-- Claim C1: with a selected constructor of N ≥ 1 parameters and a
bytecode long enough for the 32·N argument window, OnlyArgs returns
exactly the last 32·N bytes, WithoutArgs exactly the first L − 32·N
bytes, and the two output lengths sum to L. -/
theorem C1_split_window (b : Bytes) (contract : Address) (f : AbiFetch)
    (abi : JsonAbi) (nm : String) (rest : List (JsonAbi × String))
    (ctor : Constructor) (N : Nat)
    (hf : f contract = Except.ok ((abi, nm) :: rest))
    (hctor : abi.constructor = some ctor)
    (hN : ctor.inputs.length = N)
    (hpos : 1 ≤ N)
    (hlen : 32 * N ≤ b.length) :
    parse_code_output b contract f false true =
      (RResult.ok (b.drop (b.length - 32 * N)), [Call.fetch_abi contract]) ∧
    parse_code_output b contract f true false =
      (RResult.ok (b.take (b.length - 32 * N)), [Call.fetch_abi contract]) ∧
    (b.drop (b.length - 32 * N)).length = 32 * N ∧
    (b.take (b.length - 32 * N)).length
      + (b.drop (b.length - 32 * N)).length = b.length := by
  have hne : ctor.inputs.isEmpty = false := by
    cases hci : ctor.inputs with
    | nil => rw [hci] at hN; simp at hN; omega
    | cons a l => rfl
  have hsz : ctor.inputs.length * 32 = 32 * N := by
    rw [hN, Nat.mul_comm]
  have hle : ctor.inputs.length * 32 ≤ b.length := by omega
  refine ⟨?_, ?_, ?_, ?_⟩
  · simp [parse_code_output, hf, hctor, hne, hle, hsz]
    omega
  · simp [parse_code_output, hf, hctor, hne, hle, hsz]
    omega
  · rw [List.length_drop]; omega
  · rw [List.length_take, List.length_drop]; omega

/-- Witness for claim C1: a 96-byte bytecode and a two-parameter
constructor, so the window is the last 64 bytes. -/
theorem C1_split_window_witness :
    parse_code_output b96 7 abif2 false true =
      (RResult.ok (b96.drop (b96.length - 32 * 2)), [Call.fetch_abi 7]) ∧
    parse_code_output b96 7 abif2 true false =
      (RResult.ok (b96.take (b96.length - 32 * 2)), [Call.fetch_abi 7]) ∧
    (b96.drop (b96.length - 32 * 2)).length = 32 * 2 ∧
    (b96.take (b96.length - 32 * 2)).length
      + (b96.drop (b96.length - 32 * 2)).length = b96.length :=
  C1_split_window b96 7 abif2 ⟨some ctor2⟩ "C" [] ctor2 2 rfl rfl rfl
    (by decide) (by decide)

/-- Claim C4: when the creation transaction has no to address, the locator
returns exactly that transaction's input bytes, and the call log shows no
trace fetch: only the creation-data and transaction lookups happened. -/
theorem C4_top_level_returns_input (contract : Address) (client : Client)
    (provider : Provider) (cd : CreationData) (tx : Transaction)
    (hcd : client.contract_creation_data contract = Except.ok cd)
    (htx : provider.get_transaction_by_hash cd.transaction_hash =
      Except.ok (some tx))
    (hto : tx.to_addr = none) :
    fetch_creation_code contract client provider =
      (RResult.ok tx.input,
       [Call.creation_data contract,
        Call.get_transaction cd.transaction_hash]) := by
  simp [fetch_creation_code, hcd, htx, hto]

/-- Witness for claim C4 at concrete oracles. -/
theorem C4_top_level_returns_input_witness :
    fetch_creation_code 7 client1 provider_top =
      (RResult.ok tx_top.input,
       [Call.creation_data 7, Call.get_transaction 5]) :=
  C4_top_level_returns_input 7 client1 provider_top ⟨5⟩ tx_top rfl rfl rfl

/-- Claim C3: in the factory path, when the traces contain a matching
entry whose action is a Create and no later entry matches, the locator
returns that last matching entry's init bytes: the scan runs to the end
and each later match overwrites any earlier one. -/
theorem C3_last_match_wins (contract : Address) (client : Client)
    (provider : Provider) (cd : CreationData) (tx : Transaction)
    (dst : Address) (pre post : List LocalizedTrace) (t : LocalizedTrace)
    (ca : CreateAction)
    (hcd : client.contract_creation_data contract = Except.ok cd)
    (htx : provider.get_transaction_by_hash cd.transaction_hash =
      Except.ok (some tx))
    (hto : tx.to_addr = some dst)
    (htr : provider.trace_transaction cd.transaction_hash =
      Except.ok (pre ++ t :: post))
    (hm : matches_target contract t = true)
    (ha : t.trace.action = Action.create ca)
    (hpost : ∀ u ∈ post, matches_target contract u = false) :
    (fetch_creation_code contract client provider).fst =
      RResult.ok ca.init := by
  simp [fetch_creation_code, hcd, htx, hto, htr,
    scan_last_match contract pre post t ca hm ha hpost]

/-- Witness for claim C3: two matching create entries; the second one's
init bytes win. -/
theorem C3_last_match_wins_witness :
    (fetch_creation_code 7 client1
      (provider_factory [entry_create_match, entry_create_match2])).fst =
      RResult.ok [3, 4] :=
  C3_last_match_wins 7 client1
    (provider_factory [entry_create_match, entry_create_match2]) ⟨5⟩
    tx_factory 99 [entry_create_match] [] entry_create_match2 ⟨[3, 4], 0, 9, 0⟩
    rfl rfl rfl rfl rfl rfl (by simp)

/-- Claim C8: in the factory path, when no trace entry's CreateOutput
address matches the target, the locator fails with the
creation-trace-not-found error after the full scan. -/
theorem C8_no_match_not_found (contract : Address) (client : Client)
    (provider : Provider) (cd : CreationData) (tx : Transaction)
    (dst : Address) (traces : List LocalizedTrace)
    (hcd : client.contract_creation_data contract = Except.ok cd)
    (htx : provider.get_transaction_by_hash cd.transaction_hash =
      Except.ok (some tx))
    (hto : tx.to_addr = some dst)
    (htr : provider.trace_transaction cd.transaction_hash =
      Except.ok traces)
    (hnone : ∀ u ∈ traces, matches_target contract u = false) :
    (fetch_creation_code contract client provider).fst =
      RResult.error "Could not find contract creation trace." := by
  simp [fetch_creation_code, hcd, htx, hto, htr,
    foldl_scan_no_match contract traces none hnone]

/-- Witness for claim C8 at a one-entry trace list with no match. -/
theorem C8_no_match_not_found_witness :
    (fetch_creation_code 7 client1 (provider_factory [entry_other])).fst =
      RResult.error "Could not find contract creation trace." :=
  C8_no_match_not_found 7 client1 (provider_factory [entry_other]) ⟨5⟩
    tx_factory 99 [entry_other] rfl rfl rfl rfl (by decide)

/-- Claim C9: when the last matching entry's action is not a Create, the
scan overwrites any earlier recorded init bytes with nothing, so the
locator fails with the creation-trace-not-found error even if an earlier
entry matched with a Create action. -/
theorem C9_late_overwrite_loses_match (contract : Address) (client : Client)
    (provider : Provider) (cd : CreationData) (tx : Transaction)
    (dst : Address) (pre post : List LocalizedTrace) (t : LocalizedTrace)
    (hcd : client.contract_creation_data contract = Except.ok cd)
    (htx : provider.get_transaction_by_hash cd.transaction_hash =
      Except.ok (some tx))
    (hto : tx.to_addr = some dst)
    (htr : provider.trace_transaction cd.transaction_hash =
      Except.ok (pre ++ t :: post))
    (hm : matches_target contract t = true)
    (ha : t.trace.action = Action.other)
    (hpost : ∀ u ∈ post, matches_target contract u = false) :
    (fetch_creation_code contract client provider).fst =
      RResult.error "Could not find contract creation trace." := by
  simp [fetch_creation_code, hcd, htx, hto, htr,
    scan_last_match_other contract pre post t hm ha hpost]

/-- Witness for claim C9: an earlier matching create entry is wiped out by
a later matching non-create entry. -/
theorem C9_late_overwrite_loses_match_witness :
    (fetch_creation_code 7 client1
      (provider_factory [entry_create_match, entry_match_nocreate])).fst =
      RResult.error "Could not find contract creation trace." :=
  C9_late_overwrite_loses_match 7 client1
    (provider_factory [entry_create_match, entry_match_nocreate]) ⟨5⟩
    tx_factory 99 [entry_create_match] [] entry_match_nocreate
    rfl rfl rfl rfl rfl rfl (by simp)

/-- Claim C10: the explicit panic branch at the end of the slicing step of
parse_code_output is dead: no input makes the function return the
Unreachable panic, because the function returns early when both flags are
false. -/
theorem C10_unreachable_branch_dead (b : Bytes) (contract : Address)
    (f : AbiFetch) (wa oa : Bool) :
    (parse_code_output b contract f wa oa).fst ≠
      RResult.panicked "Unreachable." := by
  cases hfc : f contract with
  | error e => cases wa <;> cases oa <;> simp [parse_code_output, hfc]
  | ok abis =>
    cases abis with
    | nil => cases wa <;> cases oa <;> simp [parse_code_output, hfc]
    | cons hd tl =>
      obtain ⟨abi, nm⟩ := hd
      cases habi : abi.constructor with
      | none =>
        cases wa <;> cases oa <;> simp [parse_code_output, hfc, habi]
      | some ctor =>
        cases hci : ctor.inputs.isEmpty with
        | true =>
          cases wa <;> cases oa <;> simp [parse_code_output, hfc, habi, hci]
        | false =>
          cases wa <;> cases oa <;>
            simp [parse_code_output, hfc, habi, hci] <;>
            split <;> simp

/-- Witness for claim C10 at a concrete input. -/
theorem C10_unreachable_branch_dead_witness :
    (parse_code_output [] 0 abif_none true false).fst ≠
      RResult.panicked "Unreachable." :=
  C10_unreachable_branch_dead [] 0 abif_none true false

end CreationCode
